import Mathlib

/-!
Verification of the SafeFile integrity subsystem (secure save export/import).

The development shallowly embeds the JavaScript class SafeFile:
JavaScript values become the inductive type JVal, JSON.stringify (with its
replacer-array semantics) becomes jsonStringify, and the four methods
generateDynamicKey, generateSignature, validateGameLogic, secureExport and
secureImport become Lean functions over JVal.

SHA-256 and HMAC-SHA-256 cannot usefully be embedded as bit-level functions
(their collision-freedom is exactly the modelling assumption every integrity
statement rests on), so the hashing backend is a parameter (structure Crypto)
and the concrete instance okCrypto models the digests symbolically as tagged
string encodings, the standard symbolic-cryptography idealization.  All
concrete distinctness facts are decided on those symbolic encodings.

Modelling notes, recorded once here:
* JS objects are field lists (List (String × JVal)); real JS objects never
  contain duplicate keys, and no theorem below depends on duplicate-key
  field lists behaving like JS.
* String ordering is by Unicode code point; JavaScript compares UTF-16 code
  units.  The two orders agree on all strings appearing in this development
  (they can differ only when a character beyond U+FFFF is compared against
  one in U+E000..U+FFFF).
* Date.prototype.toLocaleString formatting is abstracted to the epoch value
  that feeds it; no claim inspects the formatted text.
* Numbers are Int: every number the subsystem manipulates (timestamps,
  counts, version tags) is an integer in the JS safe range.
-/

namespace SafeFile

/-- JavaScript values, as far as the SafeFile subsystem observes them:
null, booleans, (integer) numbers, strings, arrays and objects.  Objects
are ordered field lists, mirroring JS property insertion order. -/
inductive JVal where
  | null : JVal
  | bool : Bool → JVal
  | num : Int → JVal
  | str : String → JVal
  | arr : List JVal → JVal
  | obj : List (String × JVal) → JVal

mutual

/-- Decidable equality on JVal (the automatic deriving handler does not
support this nested inductive type). -/
def decEqJVal : (a b : JVal) → Decidable (a = b)
  | .null, .null => isTrue rfl
  | .bool x, .bool y =>
    match instDecidableEqBool x y with
    | isTrue h => isTrue (by rw [h])
    | isFalse h => isFalse (fun e => h (by injection e))
  | .num x, .num y =>
    match Int.instDecidableEq x y with
    | isTrue h => isTrue (by rw [h])
    | isFalse h => isFalse (fun e => h (by injection e))
  | .str x, .str y =>
    match String.decEq x y with
    | isTrue h => isTrue (by rw [h])
    | isFalse h => isFalse (fun e => h (by injection e))
  | .arr xs, .arr ys =>
    match decEqJList xs ys with
    | isTrue h => isTrue (by rw [h])
    | isFalse h => isFalse (fun e => h (by injection e))
  | .obj fs, .obj gs =>
    match decEqJFields fs gs with
    | isTrue h => isTrue (by rw [h])
    | isFalse h => isFalse (fun e => h (by injection e))
  | .null, .bool _ | .null, .num _ | .null, .str _ | .null, .arr _
  | .null, .obj _ | .bool _, .null | .bool _, .num _ | .bool _, .str _
  | .bool _, .arr _ | .bool _, .obj _ | .num _, .null | .num _, .bool _
  | .num _, .str _ | .num _, .arr _ | .num _, .obj _ | .str _, .null
  | .str _, .bool _ | .str _, .num _ | .str _, .arr _ | .str _, .obj _
  | .arr _, .null | .arr _, .bool _ | .arr _, .num _ | .arr _, .str _
  | .arr _, .obj _ | .obj _, .null | .obj _, .bool _ | .obj _, .num _
  | .obj _, .str _ | .obj _, .arr _ => isFalse (fun h => JVal.noConfusion h)

def decEqJList : (xs ys : List JVal) → Decidable (xs = ys)
  | [], [] => isTrue rfl
  | [], _ :: _ => isFalse (fun h => List.noConfusion h)
  | _ :: _, [] => isFalse (fun h => List.noConfusion h)
  | x :: xs, y :: ys =>
    match decEqJVal x y with
    | isFalse h1 => isFalse (fun e => h1 (by injection e))
    | isTrue h1 =>
      match decEqJList xs ys with
      | isTrue h2 => isTrue (by rw [h1, h2])
      | isFalse h2 => isFalse (fun e => h2 (by injection e))

def decEqJFields : (fs gs : List (String × JVal)) → Decidable (fs = gs)
  | [], [] => isTrue rfl
  | [], _ :: _ => isFalse (fun h => List.noConfusion h)
  | _ :: _, [] => isFalse (fun h => List.noConfusion h)
  | (k, v) :: fs, (k2, v2) :: gs =>
    match String.decEq k k2 with
    | isFalse h1 =>
      isFalse (fun e => by
        injection e with e1 e2
        exact h1 (congrArg Prod.fst e1))
    | isTrue h1 =>
      match decEqJVal v v2 with
      | isFalse h2 =>
        isFalse (fun e => by
          injection e with e1 e2
          exact h2 (congrArg Prod.snd e1))
      | isTrue h2 =>
        match decEqJFields fs gs with
        | isTrue h3 => isTrue (by rw [h1, h2, h3])
        | isFalse h3 => isFalse (fun e => h3 (by injection e))

end

instance : DecidableEq JVal := decEqJVal

mutual

/-- Node count of a value; it bounds the nesting depth and serves as fuel
for the recursions that traverse looked-up substructures. -/
def jsize : JVal → Nat
  | .null => 1
  | .bool _ => 1
  | .num _ => 1
  | .str _ => 1
  | .arr xs => jsizeL xs + 1
  | .obj fs => jsizeP fs + 1

def jsizeL : List JVal → Nat
  | [] => 0
  | x :: xs => jsize x + jsizeL xs

def jsizeP : List (String × JVal) → Nat
  | [] => 0
  | (_, v) :: fs => jsize v + jsizeP fs

end

/-- The three reserved envelope keys from the SafeFile constructor. -/
def INTEGRITY_KEY : String := "_sf_integrity"

def TIMESTAMP_KEY : String := "_sf_timestamp"

def VERSION_KEY : String := "_sf_version"

/-- JavaScript truthiness restricted to JVal: null, false, 0 and the empty
string are falsy; every array and object is truthy. -/
def truthy : JVal → Bool
  | .null => false
  | .bool b => b
  | .num n => decide (n ≠ 0)
  | .str s => decide (s ≠ "")
  | .arr _ => true
  | .obj _ => true

/-- Truthiness of an optional value; a missing property (undefined) is falsy. -/
def truthyO : Option JVal → Bool
  | none => false
  | some v => truthy v

/-- First-match lookup in a field list (JS property access on an object). -/
def lookupField : List (String × JVal) → String → Option JVal
  | [], _ => none
  | (k', v) :: fs, k => if k' = k then some v else lookupField fs k

/-- Decimal digit character. -/
def digitChar (n : Nat) : Char := Char.ofNat (48 + n)

/-- Fuel-driven decimal rendering of a natural number (the fuel n + 1 always
suffices since a number has at most n + 1 digits). -/
def natToStrAux : Nat → Nat → List Char → List Char
  | 0, _, acc => acc
  | fuel + 1, n, acc =>
    if n < 10 then digitChar n :: acc
    else natToStrAux fuel (n / 10) (digitChar (n % 10) :: acc)

/-- Decimal rendering of a natural number. -/
def natToStr (n : Nat) : String := ⟨natToStrAux (n + 1) n []⟩

/-- Decimal rendering of an integer, matching JS Number.prototype.toString
on integers. -/
def intToStr : Int → String
  | .ofNat n => natToStr n
  | .negSucc m => "-" ++ natToStr (m + 1)

/-- Enumerate list elements as JS index properties "0", "1", ... . -/
def indexFields : Nat → List JVal → List (String × JVal)
  | _, [] => []
  | i, x :: xs => (natToStr i, x) :: indexFields (i + 1) xs

/-- Own enumerable properties of a value, as seen by object spread / rest
destructuring: an object yields its fields, an array its index properties,
a string its index characters, every other primitive nothing. -/
def spreadFields : JVal → List (String × JVal)
  | .obj fs => fs
  | .arr xs => indexFields 0 xs
  | .str s => indexFields 0 (s.data.map (fun c => .str (String.singleton c)))
  | _ => []

/-- Object.keys. -/
def objKeys (v : JVal) : List String := (spreadFields v).map Prod.fst

/-- JS property access (obj.k); undefined is none.  The embedded code only
reads named (non-index) properties, which do not exist on arrays, strings
or other primitives. -/
def getProp (v : JVal) (k : String) : Option JVal :=
  match v with
  | .obj fs => lookupField fs k
  | _ => none

/-- The idiom x.f || d: the property value if present and truthy, else d. -/
def jsOr (o : Option JVal) (d : JVal) : JVal :=
  match o with
  | some v => if truthy v then v else d
  | none => d

/-- typeof v === 'object' (true for objects, arrays and null). -/
def jsTypeofIsObject : JVal → Bool
  | .obj _ => true
  | .arr _ => true
  | .null => true
  | _ => false

def isNullVal : JVal → Bool
  | .null => true
  | _ => false

def isArrayVal : JVal → Bool
  | .arr _ => true
  | _ => false

/-- Code-unit lexicographic order on character lists. -/
def charListLt : List Char → List Char → Bool
  | [], [] => false
  | [], _ :: _ => true
  | _ :: _, [] => false
  | a :: as, b :: bs =>
    if a < b then true else if b < a then false else charListLt as bs

/-- JS default string comparison (a < b). -/
def strLt (a b : String) : Bool := charListLt a.data b.data

/-- Insert x into a sorted list, after every element whose key is not
greater: this makes the fold below a stable sort, as Array.prototype.sort
is. -/
def insertByKey {α : Type} (key : α → String) (x : α) : List α → List α
  | [] => [x]
  | y :: ys => if strLt (key x) (key y) then x :: y :: ys else y :: insertByKey key x ys

/-- Stable sort by a string key (Array.prototype.sort with the default
comparator, for elements whose string images are the keys). -/
def sortByKey {α : Type} (key : α → String) (l : List α) : List α :=
  l.foldl (fun acc x => insertByKey key x acc) []

/-- Array.prototype.sort on an array of strings. -/
def sortStrs (l : List String) : List String := sortByKey id l

/-- String(v) for array elements: the JS ToString conversion used both by
the default sort comparator and by Array.prototype.join (fuel-driven; the
fuel sizeOf v always exceeds the nesting depth). -/
def jsDisplayF : Nat → JVal → String
  | 0, _ => ""
  | fuel + 1, v =>
    match v with
    | .null => "null"
    | .bool b => cond b "true" "false"
    | .num n => intToStr n
    | .str s => s
    | .arr xs =>
      String.intercalate ","
        (xs.map (fun x => match x with
          | .null => ""
          | x => jsDisplayF fuel x))
    | .obj _ => "[object Object]"

def jsDisplay (v : JVal) : String := jsDisplayF (jsize v) v

/-- Hexadecimal digit (lowercase, as JSON.stringify emits). -/
def hexDigit (n : Nat) : Char :=
  if n < 10 then Char.ofNat (48 + n) else Char.ofNat (87 + n)

/-- JSON string escaping of one character, as JSON.stringify performs it. -/
def escChar (c : Char) : String :=
  if c = '"' then "\\\""
  else if c = '\\' then "\\\\"
  else if c = '\x08' then "\\b"
  else if c = '\x09' then "\\t"
  else if c = '\x0a' then "\\n"
  else if c = '\x0c' then "\\f"
  else if c = '\x0d' then "\\r"
  else if c.val < 32 then
    "\\u00" ++ ⟨[hexDigit ((c.toNat / 16) % 16), hexDigit (c.toNat % 16)]⟩
  else String.singleton c

/-- JSON quoting of a string. -/
def quoteJson (s : String) : String :=
  "\"" ++ String.join (s.data.map escChar) ++ "\""

/-- JSON.stringify with an optional replacer array K, fuel-driven.
Faithful to ECMA-404/ECMA-262: when K is present it is the property list
used for EVERY object at EVERY depth (both selecting and ordering the
serialized members), while arrays always serialize all their elements.
This nested filtering is the load-bearing quirk of the source's
JSON.stringify(saveData, Object.keys(saveData).sort()) canonicalization. -/
def stringifyF : Nat → Option (List String) → JVal → String
  | 0, _, _ => ""
  | fuel + 1, K, v =>
    match v with
    | .null => "null"
    | .bool b => cond b "true" "false"
    | .num n => intToStr n
    | .str s => quoteJson s
    | .arr xs =>
      "[" ++ String.intercalate "," (xs.map (fun x => stringifyF fuel K x)) ++ "]"
    | .obj fs =>
      let ks := match K with
        | some ks => ks
        | none => fs.map Prod.fst
      let mems := ks.filterMap (fun k =>
        (lookupField fs k).map (fun w => quoteJson k ++ ":" ++ stringifyF fuel K w))
      "\x7b" ++ String.intercalate "," mems ++ "\x7d"

/-- JSON.stringify (the fuel sizeOf v always exceeds the nesting depth of v). -/
def jsonStringify (K : Option (List String)) (v : JVal) : String :=
  stringifyF (jsize v) K v

/-- The hashing backend (crypto.subtle plus btoa), as a parameter: digests
may fail (the platform crypto service can be unavailable), and failures
carry the underlying error message. -/
structure Crypto where
  sha256base64 : String → Except String String
  hmacSha256base64 : String → String → Except String String

/-- The symbolic instance of the backend: SHA-256 and HMAC-SHA-256 are
modelled as tagged encodings of their input, never failing.  Only
determinism of the digests is used by the theorems below; distinctness of
particular digests is decided on the concrete encodings. -/
def okCrypto : Crypto where
  sha256base64 s := .ok ("SHA256B64(" ++ s ++ ")")
  hmacSha256base64 k m := .ok ("HMACSHA256(" ++ k ++ "|" ++ m ++ ")")

/-- A backend whose digest calls fail with the given message (the platform
crypto service being unavailable). -/
def failCrypto (msg : String) : Crypto where
  sha256base64 _ := .error msg
  hmacSha256base64 _ _ := .error msg

/-- s.slice(0, n) for a short slice. -/
def strTake (s : String) (n : Nat) : String := ⟨s.data.take n⟩

/-- Sorted unlocked-entity names: Object.keys(saveData.unlocked || {}).sort(). -/
def sortedUnlockedNames (saveData : JVal) : List String :=
  sortStrs (objKeys (jsOr (getProp saveData "unlocked") (.obj [])))

/-- Unlocked-entity count: Object.keys(saveData.unlocked || {}).length. -/
def unlockedCount (saveData : JVal) : Nat :=
  (objKeys (jsOr (getProp saveData "unlocked") (.obj []))).length

/-- Schema version with default: saveData.version || 1. -/
def versionOf (saveData : JVal) : JVal := jsOr (getProp saveData "version") (.num 1)

/-- saveData.missions || []. -/
def missionsValOf (saveData : JVal) : JVal := jsOr (getProp saveData "missions") (.arr [])

/-- Whether the missions array contains a null element; m.done on such an
element throws a TypeError in JS (caught by the callers' try blocks). -/
def missionsHasNullElem : JVal → Bool
  | .arr xs => xs.any isNullVal
  | _ => false

/-- The name properties of the missions with a truthy done flag:
missions.filter(m => m.done).map(m => m.name).  none is JS undefined
(a mission record without a name). -/
def doneMissionNameVals : JVal → List (Option JVal)
  | .arr ms => (ms.filter (fun m => truthyO (getProp m "done"))).map (fun m => getProp m "name")
  | _ => []

def doneNameCells (saveData : JVal) : List (Option JVal) :=
  doneMissionNameVals (missionsValOf saveData)

/-- The done-mission names after Array.prototype.sort: defined elements are
stably sorted by their string images, undefined elements go last. -/
def sortedDoneNames (saveData : JVal) : List (Option JVal) :=
  (sortByKey jsDisplay ((doneNameCells saveData).filterMap id)).map some ++
    List.replicate
      ((doneNameCells saveData).length - ((doneNameCells saveData).filterMap id).length)
      none

/-- Array.prototype.join element conversion: null and undefined join as
the empty string. -/
def joinImageO : Option JVal → String
  | none => ""
  | some .null => ""
  | some v => jsDisplay v

/-- The comma-joined sorted done-mission names. -/
def missionProgressOf (saveData : JVal) : String :=
  String.intercalate "," ((sortedDoneNames saveData).map joinImageO)

/-- The reduced fingerprint object built by generateDynamicKey (field order
is the object-literal insertion order of the source). -/
def keyFeatures (saveData : JVal) : JVal :=
  .obj [("unlocked", .arr ((sortedUnlockedNames saveData).map .str)),
        ("missionProgress", .str (missionProgressOf saveData)),
        ("stats", .obj [("unlockedCount", .num (unlockedCount saveData)),
                        ("version", versionOf saveData)])]

/-- SafeFile.generateDynamicKey: serialize the reduced fingerprint, SHA-256
hash it, base64 the digest, keep the first 32 characters.  A null element
in missions makes the feature extraction itself throw (m.done on null),
which surfaces as an error. -/
def generateDynamicKey (c : Crypto) (saveData : JVal) : Except String String :=
  if missionsHasNullElem (missionsValOf saveData) then
    .error "Cannot read properties of null (reading 'done')"
  else
    (c.sha256base64 (jsonStringify none (keyFeatures saveData))).map (fun s => strTake s 32)

/-- The canonical serialization signed by SafeFile:
JSON.stringify(saveData, Object.keys(saveData).sort()). -/
def canonicalOf (saveData : JVal) : String :=
  jsonStringify (some (sortStrs (objKeys saveData))) saveData

/-- SafeFile.generateSignature: HMAC-SHA-256 of the canonical serialization
keyed by the dynamic key, base64-encoded. -/
def generateSignature (c : Crypto) (saveData : JVal) (dynamicKey : String) :
    Except String String :=
  c.hmacSha256base64 dynamicKey (canonicalOf saveData)

/-- Result of SafeFile.validateGameLogic: valid, or invalid with a reason. -/
inductive VResult where
  | ok : VResult
  | bad : String → VResult
  deriving DecidableEq

/-- SafeFile.validateGameLogic.  The try/catch of the source is not
modelled: no expression in the guarded block can throw once the first
typeof check has passed. -/
def validateGameLogic (saveData : JVal) : VResult :=
  if !jsTypeofIsObject saveData || isNullVal saveData then .bad "存檔格式錯誤"
  else
    let unlocked := jsOr (getProp saveData "unlocked") (.obj [])
    let history := jsOr (getProp saveData "history") (.arr [])
    let missions := jsOr (getProp saveData "missions") (.arr [])
    if !jsTypeofIsObject unlocked then .bad "解鎖數據格式錯誤"
    else if !isArrayVal history then .bad "歷史記錄格式錯誤"
    else if !isArrayVal missions then .bad "任務數據格式錯誤"
    else .ok

/-- Update a field in place if the key is present (JS object spread with a
colliding key keeps the key's original position), otherwise append. -/
def setPairs : List (String × JVal) → String → JVal → List (String × JVal)
  | [], k, v => [(k, v)]
  | (k', w) :: fs, k, v =>
    if k' = k then (k', v) :: fs else (k', w) :: setPairs fs k v

def isReservedKey (k : String) : Bool :=
  decide (k = INTEGRITY_KEY) || decide (k = TIMESTAMP_KEY) || decide (k = VERSION_KEY)

/-- Remove the three reserved keys (the rest pattern of secureImport). -/
def stripReserved (fs : List (String × JVal)) : List (String × JVal) :=
  fs.filter (fun kv => !isReservedKey kv.1)

/-- Length of a (validated) sequence field. -/
def arrLen : JVal → Nat
  | .arr xs => xs.length
  | _ => 0

/-- The summary counts of a successful export. -/
structure ExportInfo where
  elements : Nat
  history : Nat
  missions : Nat
  deriving DecidableEq

/-- Result of SafeFile.secureExport: the envelope plus counts, or an error
message. -/
inductive ExportResult where
  | success : JVal → ExportInfo → ExportResult
  | failure : String → ExportResult
  deriving DecidableEq

/-- The envelope of a successful export (null for a failed one). -/
def exportData : ExportResult → JVal
  | .success d _ => d
  | .failure _ => .null

/-- SafeFile.secureExport.  now is Date.now() at export time.  The
validation throw of the source is caught by its own try block, producing
the failure result with the thrown message. -/
def secureExport (c : Crypto) (now : Int) (saveData : JVal) : ExportResult :=
  match validateGameLogic saveData with
  | .bad reason => .failure ("存檔結構錯誤: " ++ reason)
  | .ok =>
    match generateDynamicKey c saveData with
    | .error m => .failure m
    | .ok dynamicKey =>
      match generateSignature c saveData dynamicKey with
      | .error m => .failure m
      | .ok signature =>
        .success
          (.obj (setPairs (setPairs (setPairs (spreadFields saveData)
            INTEGRITY_KEY (.str signature)) TIMESTAMP_KEY (.num now))
            VERSION_KEY (.str "1.0")))
          ⟨unlockedCount saveData,
           arrLen (jsOr (getProp saveData "history") (.arr [])),
           arrLen (jsOr (getProp saveData "missions") (.arr []))⟩

/-- The metadata of a successful import.  importTimeMs is the epoch value
fed to new Date(timestamp || Date.now()).toLocaleString(). -/
structure ImportInfo where
  importTimeMs : Int
  elements : Nat
  verified : Bool
  deriving DecidableEq

/-- Result of SafeFile.secureImport: the recovered snapshot plus metadata,
or a rejection reason. -/
inductive ImportResult where
  | success : JVal → ImportInfo → ImportResult
  | failure : String → ImportResult
  deriving DecidableEq

/-- new Date("2025-01-01").getTime(): the release-boundary constant,
2025-01-01T00:00:00Z in epoch milliseconds. -/
def releaseTime : Int := 1735689600000

def dayInMs : Int := 86400000

/-- Numeric coercion for the timestamp comparison.  none stands for NaN
(every comparison false).  Strings and containers are not given their full
JS ToNumber semantics; no theorem below exercises a non-numeric truthy
timestamp. -/
def toNumLoose : JVal → Option Int
  | .num n => some n
  | .bool b => some (if b then 1 else 0)
  | .null => some 0
  | _ => none

/-- The timestamp gate condition: timestamp < releaseTime or
timestamp > now + dayInMs. -/
def tsOutOfRange (now : Int) (o : Option JVal) : Bool :=
  match o with
  | some v =>
    match toNumLoose v with
    | some t => decide (t < releaseTime) || decide (now + dayInMs < t)
    | none => false
  | none => false

/-- The epoch value of timestamp || Date.now(). -/
def importTimeMs (now : Int) (o : Option JVal) : Int :=
  match o with
  | some v => if truthy v then (toNumLoose v).getD 0 else now
  | none => now

/-- The strict equality test signature !== expectedSignature, negated: a
non-string signature value is never strictly equal to a string. -/
def sigMatches (o : Option JVal) (s : String) : Bool :=
  match o with
  | some (.str t) => t == s
  | _ => false

/-- SafeFile.secureImport.  now is Date.now() at import time.  Destructuring
null throws a TypeError which the catch turns into the failure result; the
engine's message text is abbreviated. -/
def secureImport (c : Crypto) (now : Int) (importedData : JVal) : ImportResult :=
  match importedData with
  | .null => .failure "匯入錯誤: Cannot destructure a null value"
  | v =>
    let fields := spreadFields v
    let signature := lookupField fields INTEGRITY_KEY
    let timestamp := lookupField fields TIMESTAMP_KEY
    let gameData : JVal := .obj (stripReserved fields)
    if !truthyO signature then .failure "這不是安全存檔格式"
    else if truthyO timestamp && tsOutOfRange now timestamp then
      .failure "存檔時間戳異常"
    else
      match validateGameLogic gameData with
      | .bad reason => .failure ("存檔結構錯誤: " ++ reason)
      | .ok =>
        match generateDynamicKey c gameData with
        | .error m => .failure ("匯入錯誤: " ++ m)
        | .ok expectedKey =>
          match generateSignature c gameData expectedKey with
          | .error m => .failure ("匯入錯誤: " ++ m)
          | .ok expectedSignature =>
            if !sigMatches signature expectedSignature then
              .failure "存檔完整性驗證失敗 - 可能已被修改"
            else
              .success gameData
                ⟨importTimeMs now timestamp,
                 unlockedCount gameData,
                 true⟩

/-- Fields of an object value (used to state envelope-mutation claims). -/
def objFields : JVal → List (String × JVal)
  | .obj fs => fs
  | _ => []

/-- Replace one top-level field of an envelope (the tampering operation of
the tamper-detection claims). -/
def withField (e : JVal) (k : String) (v : JVal) : JVal :=
  .obj (setPairs (objFields e) k v)

def isObjVal : JVal → Bool
  | .obj _ => true
  | _ => false

/-- Spec-side field-type condition, written from the specification's words:
a field is acceptable when absent, falsy, or of the required type. -/
def fieldTypeOkO (p : JVal → Bool) : Option JVal → Bool
  | none => true
  | some f => !truthy f || p f

/-- Spec-side structural validity, written from the specification's words:
object input whose unlocked/history/missions fields, where present and
truthy, have the right type. -/
def structurallyValid (v : JVal) : Bool :=
  (isObjVal v || isArrayVal v) &&
  fieldTypeOkO jsTypeofIsObject (getProp v "unlocked") &&
  fieldTypeOkO isArrayVal (getProp v "history") &&
  fieldTypeOkO isArrayVal (getProp v "missions")

/-- The dynamic key the symbolic backend derives for a snapshot. -/
def okKey (saveData : JVal) : String :=
  strTake ("SHA256B64(" ++ jsonStringify none (keyFeatures saveData) ++ ")") 32

/-- The signature the symbolic backend derives for a snapshot. -/
def okSig (saveData : JVal) : String :=
  "HMACSHA256(" ++ okKey saveData ++ "|" ++ canonicalOf saveData ++ ")"

/-- The concrete snapshot of the specification's test scenario. -/
def sampleSnapshot : JVal :=
  .obj [("unlocked", .obj [("Fire", .arr [.str "🔥"])]),
        ("history", .arr []),
        ("missions", .arr [.obj [("name", .str "Fire"),
                                 ("emoji", .arr [.str "🔥"]),
                                 ("done", .bool true)]]),
        ("version", .num 1)]

/-- A tampered replacement for the sample snapshot's unlocked field: the
entity's display data is changed. -/
def tamperedUnlocked : JVal := .obj [("Fire", .arr [.str "💧"])]

/-- The sample snapshot's envelope with its top-level unlocked field
replaced by the tampered value. -/
def tamperedEnvelope : JVal :=
  withField (exportData (secureExport okCrypto releaseTime sampleSnapshot))
    "unlocked" tamperedUnlocked

/-! ## General lemmas about the embedding -/

theorem strAppend_data (a b : String) : (a ++ b).data = a.data ++ b.data := by
  cases a
  cases b
  rfl

theorem okSig_ne_empty (S : JVal) : okSig S ≠ "" := by
  intro h
  have h2 := congrArg String.data h
  rw [okSig, strAppend_data, strAppend_data, strAppend_data, strAppend_data] at h2
  simp only [List.append_assoc, List.append_eq_nil] at h2
  exact absurd h2.1 (by decide)

theorem lookupField_append_of_none {fs : List (String × JVal)} {k : String}
    (h : lookupField fs k = none) (gs : List (String × JVal)) :
    lookupField (fs ++ gs) k = lookupField gs k := by
  induction fs with
  | nil => rfl
  | cons kv fs ih =>
    obtain ⟨k', v⟩ := kv
    by_cases hk : k' = k
    · simp [lookupField, hk] at h
    · simp only [lookupField, if_neg hk] at h
      simpa only [List.cons_append, lookupField, if_neg hk] using ih h

theorem setPairs_of_none {fs : List (String × JVal)} {k : String}
    (h : lookupField fs k = none) (v : JVal) :
    setPairs fs k v = fs ++ [(k, v)] := by
  induction fs with
  | nil => rfl
  | cons kv fs ih =>
    obtain ⟨k', w⟩ := kv
    by_cases hk : k' = k
    · simp [lookupField, hk] at h
    · simp only [lookupField, if_neg hk] at h
      simp [setPairs, if_neg hk, ih h]

theorem lookupField_setPairs_self (fs : List (String × JVal)) (k : String) (v : JVal) :
    lookupField (setPairs fs k v) k = some v := by
  induction fs with
  | nil => simp [setPairs, lookupField]
  | cons kv fs ih =>
    obtain ⟨k', w⟩ := kv
    by_cases hk : k' = k
    · simp [setPairs, hk, lookupField]
    · simp [setPairs, if_neg hk, lookupField, ih]

theorem lookupField_setPairs_of_ne {k kq : String} (h : kq ≠ k)
    (fs : List (String × JVal)) (v : JVal) :
    lookupField (setPairs fs k v) kq = lookupField fs kq := by
  induction fs with
  | nil =>
    have hne : ¬k = kq := fun e => h e.symm
    simp [setPairs, lookupField, hne]
  | cons kv fs ih =>
    obtain ⟨k', w⟩ := kv
    by_cases hk : k' = k
    · subst hk
      have hne : ¬k' = kq := fun e => h e.symm
      simp [setPairs, lookupField, hne]
    · simp [setPairs, if_neg hk, lookupField, ih]

theorem forall_ne_of_lookupField_none {fs : List (String × JVal)} {k : String}
    (h : lookupField fs k = none) : ∀ kv ∈ fs, kv.1 ≠ k := by
  induction fs with
  | nil => intro kv hm; cases hm
  | cons kv' fs ih =>
    obtain ⟨k', v⟩ := kv'
    by_cases hk : k' = k
    · simp [lookupField, hk] at h
    · simp only [lookupField, if_neg hk] at h
      intro kv hm
      rcases List.mem_cons.mp hm with hh | ht
      · subst hh; exact hk
      · exact ih h kv ht

theorem stripReserved_eq_self {fs : List (String × JVal)}
    (h1 : lookupField fs INTEGRITY_KEY = none)
    (h2 : lookupField fs TIMESTAMP_KEY = none)
    (h3 : lookupField fs VERSION_KEY = none) :
    stripReserved fs = fs := by
  rw [stripReserved, List.filter_eq_self]
  intro kv hm
  have e1 := forall_ne_of_lookupField_none h1 kv hm
  have e2 := forall_ne_of_lookupField_none h2 kv hm
  have e3 := forall_ne_of_lookupField_none h3 kv hm
  simp [isReservedKey, e1, e2, e3]

theorem stripReserved_append (fs gs : List (String × JVal)) :
    stripReserved (fs ++ gs) = stripReserved fs ++ stripReserved gs := by
  simp [stripReserved, List.filter_append]

theorem lookupField_stripReserved {k : String} (hk : isReservedKey k = true)
    (fs : List (String × JVal)) :
    lookupField (stripReserved fs) k = none := by
  induction fs with
  | nil => rfl
  | cons kv fs ih =>
    obtain ⟨k', v⟩ := kv
    by_cases h : isReservedKey k' = true
    · simpa [stripReserved, List.filter, h] using ih
    · have hne : k' ≠ k := fun e => h (e ▸ hk)
      simpa [stripReserved, List.filter, h, lookupField, if_neg hne] using ih

theorem generateDynamicKey_okCrypto {S : JVal}
    (h : missionsHasNullElem (missionsValOf S) = false) :
    generateDynamicKey okCrypto S = .ok (okKey S) := by
  simp [generateDynamicKey, h, okCrypto, okKey, Except.map]

theorem generateSignature_okCrypto (S : JVal) (k : String) :
    generateSignature okCrypto S k =
      .ok ("HMACSHA256(" ++ k ++ "|" ++ canonicalOf S ++ ")") := rfl

theorem secureExport_ok {fs : List (String × JVal)} {now : Int}
    (hval : validateGameLogic (.obj fs) = .ok)
    (hnn : missionsHasNullElem (missionsValOf (.obj fs)) = false) :
    secureExport okCrypto now (.obj fs) =
      .success
        (.obj (setPairs (setPairs (setPairs fs
          INTEGRITY_KEY (.str (okSig (.obj fs)))) TIMESTAMP_KEY (.num now))
          VERSION_KEY (.str "1.0")))
        ⟨unlockedCount (.obj fs),
         arrLen (jsOr (getProp (.obj fs) "history") (.arr [])),
         arrLen (jsOr (getProp (.obj fs) "missions") (.arr []))⟩ := by
  rw [secureExport, hval, generateDynamicKey_okCrypto hnn]
  rfl

theorem setPairs_append_of_none {fs : List (String × JVal)} {k : String}
    (h : lookupField fs k = none) (gs : List (String × JVal)) (v : JVal) :
    setPairs (fs ++ gs) k v = fs ++ setPairs gs k v := by
  induction fs with
  | nil => rfl
  | cons kv fs ih =>
    obtain ⟨k', w⟩ := kv
    by_cases hk : k' = k
    · simp [lookupField, hk] at h
    · simp only [lookupField, if_neg hk] at h
      simp [setPairs, if_neg hk, ih h]

theorem export_env_normal {fs : List (String × JVal)} {sig : String} {now : Int}
    (hIK : lookupField fs INTEGRITY_KEY = none)
    (hTK : lookupField fs TIMESTAMP_KEY = none)
    (hVK : lookupField fs VERSION_KEY = none) :
    setPairs (setPairs (setPairs fs INTEGRITY_KEY (.str sig))
        TIMESTAMP_KEY (.num now)) VERSION_KEY (.str "1.0") =
      fs ++ [(INTEGRITY_KEY, .str sig), (TIMESTAMP_KEY, .num now),
             (VERSION_KEY, .str "1.0")] := by
  rw [setPairs_of_none hIK, setPairs_append_of_none hTK,
    setPairs_append_of_none hVK]
  rfl

theorem secureImport_env {c : Crypto} {fs : List (String × JVal)} {now : Int}
    {sig : String} {tsv : JVal}
    (hIK : lookupField fs INTEGRITY_KEY = none)
    (hTK : lookupField fs TIMESTAMP_KEY = none)
    (hVK : lookupField fs VERSION_KEY = none)
    (hsig : sig ≠ "") :
    secureImport c now (.obj (fs ++ [(INTEGRITY_KEY, .str sig),
        (TIMESTAMP_KEY, tsv), (VERSION_KEY, .str "1.0")])) =
      (if truthy tsv && tsOutOfRange now (some tsv) then
        .failure "存檔時間戳異常"
      else
        match validateGameLogic (.obj fs) with
        | .bad reason => .failure ("存檔結構錯誤: " ++ reason)
        | .ok =>
          match generateDynamicKey c (.obj fs) with
          | .error m => .failure ("匯入錯誤: " ++ m)
          | .ok expectedKey =>
            match generateSignature c (.obj fs) expectedKey with
            | .error m => .failure ("匯入錯誤: " ++ m)
            | .ok expectedSignature =>
              if !sigMatches (some (.str sig)) expectedSignature then
                .failure "存檔完整性驗證失敗 - 可能已被修改"
              else
                .success (.obj fs)
                  ⟨importTimeMs now (some tsv), unlockedCount (.obj fs), true⟩) := by
  have hik : lookupField (fs ++ [(INTEGRITY_KEY, .str sig), (TIMESTAMP_KEY, tsv),
      (VERSION_KEY, .str "1.0")]) INTEGRITY_KEY = some (.str sig) := by
    rw [lookupField_append_of_none hIK]
    rfl
  have htk : lookupField (fs ++ [(INTEGRITY_KEY, .str sig), (TIMESTAMP_KEY, tsv),
      (VERSION_KEY, .str "1.0")]) TIMESTAMP_KEY = some tsv := by
    rw [lookupField_append_of_none hTK]
    rfl
  have hstrip : stripReserved (fs ++ [(INTEGRITY_KEY, .str sig), (TIMESTAMP_KEY, tsv),
      (VERSION_KEY, .str "1.0")]) = fs := by
    rw [stripReserved_append, stripReserved_eq_self hIK hTK hVK]
    have h0 : stripReserved [(INTEGRITY_KEY, .str sig), (TIMESTAMP_KEY, tsv),
        (VERSION_KEY, .str "1.0")] = [] := rfl
    rw [h0, List.append_nil]
  have ht : truthy (.str sig) = true := by simp [truthy, hsig]
  simp only [secureImport, spreadFields, hik, htk, hstrip, truthyO, ht,
    Bool.not_true, Bool.false_eq_true, if_false]

theorem secureImport_success_data {c : Crypto} {now : Int} {e d : JVal}
    {i : ImportInfo} (h : secureImport c now e = .success d i) :
    d = .obj (stripReserved (spreadFields e)) := by
  cases e <;> simp only [secureImport] at h <;>
    [skip; skip; skip; skip; skip; skip] <;> try exact ImportResult.noConfusion h
  all_goals
    repeat' split at h
  all_goals first
    | exact ImportResult.noConfusion h
    | (injection h with h1 h2; exact h1.symm)

theorem typeOk_jsOr (p : JVal → Bool) (d : JVal) (hd : p d = true) (o : Option JVal) :
    p (jsOr o d) = fieldTypeOkO p o := by
  cases o with
  | none => simpa [jsOr, fieldTypeOkO] using hd
  | some f =>
    by_cases ht : truthy f = true
    · simp [jsOr, ht, fieldTypeOkO]
    · simp only [Bool.not_eq_true] at ht
      simp [jsOr, ht, fieldTypeOkO, hd]

/-! ## Claim theorems -/

/-- C6: an input object with no signature field is rejected with the
"not a recognized secure format" reason (and hence never with the
integrity-mismatch reason). -/
theorem c6_no_signature_is_format_error (c : Crypto) (now : Int)
    (fs : List (String × JVal)) (h : lookupField fs INTEGRITY_KEY = none) :
    secureImport c now (.obj fs) = .failure "這不是安全存檔格式" := by
  simp [secureImport, spreadFields, h, truthyO]

/-- Witness for C6 at a concrete signature-free object. -/
theorem c6_no_signature_is_format_error_witness :
    secureImport okCrypto 0 (.obj [("unlocked", .obj [])]) =
      .failure "這不是安全存檔格式" :=
  c6_no_signature_is_format_error okCrypto 0 [("unlocked", .obj [])] rfl

/-- C9: an envelope whose signature field is present but falsy (such as the
empty string) is rejected with the "not a recognized secure format" reason,
not the integrity-mismatch reason: presence is tested by truthiness. -/
theorem c9_falsy_signature_is_format_error (c : Crypto) (now : Int)
    (fs : List (String × JVal)) (v : JVal)
    (h : lookupField fs INTEGRITY_KEY = some v) (hf : truthy v = false) :
    secureImport c now (.obj fs) = .failure "這不是安全存檔格式" := by
  simp [secureImport, spreadFields, h, truthyO, hf]

/-- Witness for C9 at an envelope whose signature is the empty string. -/
theorem c9_falsy_signature_is_format_error_witness :
    secureImport okCrypto 0 (.obj [("_sf_integrity", .str "")]) =
      .failure "這不是安全存檔格式" :=
  c9_falsy_signature_is_format_error okCrypto 0 [("_sf_integrity", .str "")]
    (.str "") rfl rfl

/-- C1: evaluation of the code at the failing input of the tamper-detection
claim.  Replacing the envelope's top-level unlocked field with different
display data (a single top-level field mutation, no signature recomputation)
is NOT caught: secureImport succeeds, returns the tampered snapshot and
reports verified = true.  The replacer-array canonicalization serializes
the unlocked object as an empty member and the derived key depends only on
the unlocked names, so neither the signed bytes nor the key change. -/
theorem c1_top_level_tamper_not_caught :
    secureImport okCrypto releaseTime tamperedEnvelope =
      .success
        (.obj [("unlocked", tamperedUnlocked),
               ("history", .arr []),
               ("missions", .arr [.obj [("name", .str "Fire"),
                                        ("emoji", .arr [.str "🔥"]),
                                        ("done", .bool true)]]),
               ("version", .num 1)])
        ⟨releaseTime, 1, true⟩ := by decide

/-- C2 counterexample: a snapshot that the structural validator accepts but
which carries a reserved key does not round-trip: the exporter signs the
snapshot with the reserved field still inside and the importer strips it
before re-deriving the signature, so the import fails with the integrity
reason instead of succeeding. -/
theorem c2_reserved_key_roundtrip_fails :
    validateGameLogic (.obj [("_sf_integrity", .str "x")]) = .ok ∧
    secureImport okCrypto releaseTime
      (exportData (secureExport okCrypto releaseTime
        (.obj [("_sf_integrity", .str "x")]))) =
      .failure "存檔完整性驗證失敗 - 可能已被修改" := ⟨rfl, rfl⟩

/-- C3 counterexample: an envelope whose timestamp equals 0 is NOT rejected
with the timestamp reason: 0 is falsy, the timestamp gate is skipped
entirely, and an otherwise-valid signed envelope imports successfully. -/
theorem c3_zero_timestamp_not_rejected :
    secureImport okCrypto releaseTime
      (withField (exportData (secureExport okCrypto releaseTime sampleSnapshot))
        TIMESTAMP_KEY (.num 0)) =
      .success sampleSnapshot ⟨releaseTime, 1, true⟩ := by decide

/-- C8 counterexample: the importer is not a pure function of the envelope
alone: the very same envelope imports successfully at one clock reading and
is rejected by the timestamp gate at another, so identical envelopes do not
always yield identical results. -/
theorem c8_import_depends_on_clock :
    secureImport okCrypto releaseTime
      (exportData (secureExport okCrypto releaseTime (.obj []))) =
      .success (.obj []) ⟨releaseTime, 0, true⟩ ∧
    secureImport okCrypto 0
      (exportData (secureExport okCrypto releaseTime (.obj []))) =
      .failure "存檔時間戳異常" ∧
    secureImport okCrypto releaseTime
      (exportData (secureExport okCrypto releaseTime (.obj []))) ≠
    secureImport okCrypto 0
      (exportData (secureExport okCrypto releaseTime (.obj []))) := by
  have h1 : secureImport okCrypto releaseTime
      (exportData (secureExport okCrypto releaseTime (.obj []))) =
      .success (.obj []) ⟨releaseTime, 0, true⟩ := rfl
  have h2 : secureImport okCrypto 0
      (exportData (secureExport okCrypto releaseTime (.obj []))) =
      .failure "存檔時間戳異常" := rfl
  exact ⟨h1, h2, fun h => ImportResult.noConfusion (h1.symm.trans (h.trans h2))⟩

/-- C5 counterexample: a snapshot whose unlocked field is present with a
value that is not a mapping type (the empty string) is nevertheless
accepted by the validator, because a falsy field value is replaced by the
empty default before the type test. -/
theorem c5_falsy_present_field_accepted :
    getProp (.obj [("unlocked", .str "")]) "unlocked" = some (.str "") ∧
    jsTypeofIsObject (.str "") = false ∧
    validateGameLogic (.obj [("unlocked", .str "")]) = .ok := ⟨rfl, rfl, rfl⟩

/-- C5 (amended): the validator rejects exactly non-object input (null
included; arrays pass the typeof test) and fields among unlocked, history,
missions that are present with a truthy value of the wrong type, each with
the reason naming the offending check; falsy field values are treated like
absent ones and default to empty collections. -/
theorem c5_validator_characterization (v : JVal) :
    (validateGameLogic v = .ok ↔ structurallyValid v = true) ∧
    ((isObjVal v || isArrayVal v) = false →
      validateGameLogic v = .bad "存檔格式錯誤") ∧
    ((isObjVal v || isArrayVal v) = true →
      fieldTypeOkO jsTypeofIsObject (getProp v "unlocked") = false →
      validateGameLogic v = .bad "解鎖數據格式錯誤") ∧
    ((isObjVal v || isArrayVal v) = true →
      fieldTypeOkO jsTypeofIsObject (getProp v "unlocked") = true →
      fieldTypeOkO isArrayVal (getProp v "history") = false →
      validateGameLogic v = .bad "歷史記錄格式錯誤") ∧
    ((isObjVal v || isArrayVal v) = true →
      fieldTypeOkO jsTypeofIsObject (getProp v "unlocked") = true →
      fieldTypeOkO isArrayVal (getProp v "history") = true →
      fieldTypeOkO isArrayVal (getProp v "missions") = false →
      validateGameLogic v = .bad "任務數據格式錯誤") := by
  have e1 := typeOk_jsOr jsTypeofIsObject (JVal.obj []) rfl
  have e2 := typeOk_jsOr isArrayVal (JVal.arr []) rfl
  cases v with
  | obj fs =>
    have t1 : jsTypeofIsObject (JVal.obj fs) = true := rfl
    have t2 : isNullVal (JVal.obj fs) = false := rfl
    have t3 : isObjVal (JVal.obj fs) = true := rfl
    have t4 : isArrayVal (JVal.obj fs) = false := rfl
    simp only [validateGameLogic, structurallyValid, e1, e2, t1, t2, t3, t4,
      Bool.not_true, Bool.false_or, Bool.or_false, Bool.true_or, Bool.true_and,
      Bool.false_eq_true, if_false]
    cases hA : fieldTypeOkO jsTypeofIsObject (getProp (JVal.obj fs) "unlocked") <;>
    cases hB : fieldTypeOkO isArrayVal (getProp (JVal.obj fs) "history") <;>
    cases hC : fieldTypeOkO isArrayVal (getProp (JVal.obj fs) "missions") <;>
      simp_all
  | arr xs =>
    have t1 : jsTypeofIsObject (JVal.arr xs) = true := rfl
    have t2 : isNullVal (JVal.arr xs) = false := rfl
    have t3 : isObjVal (JVal.arr xs) = false := rfl
    have t4 : isArrayVal (JVal.arr xs) = true := rfl
    simp only [validateGameLogic, structurallyValid, e1, e2, t1, t2, t3, t4,
      Bool.not_true, Bool.false_or, Bool.or_false, Bool.or_true, Bool.true_and,
      Bool.false_eq_true, if_false]
    cases hA : fieldTypeOkO jsTypeofIsObject (getProp (JVal.arr xs) "unlocked") <;>
    cases hB : fieldTypeOkO isArrayVal (getProp (JVal.arr xs) "history") <;>
    cases hC : fieldTypeOkO isArrayVal (getProp (JVal.arr xs) "missions") <;>
      simp_all
  | null =>
    simp [validateGameLogic, structurallyValid, isObjVal, isArrayVal,
      isNullVal, jsTypeofIsObject]
  | bool b =>
    simp [validateGameLogic, structurallyValid, isObjVal, isArrayVal,
      isNullVal, jsTypeofIsObject]
  | num n =>
    simp [validateGameLogic, structurallyValid, isObjVal, isArrayVal,
      isNullVal, jsTypeofIsObject]
  | str s =>
    simp [validateGameLogic, structurallyValid, isObjVal, isArrayVal,
      isNullVal, jsTypeofIsObject]

/-- Witness for C5 at a concrete envelope whose history is a plain string
(the specification's structural-rejection scenario). -/
theorem c5_validator_characterization_witness :
    validateGameLogic (.obj [("history", .str "abc")]) = .bad "歷史記錄格式錯誤" :=
  (c5_validator_characterization (.obj [("history", .str "abc")])).2.2.2.1
    rfl rfl rfl

/-- C4: the derived key is a function of the reduced fingerprint alone:
whenever key derivation returns keys for two snapshots agreeing on the
sorted unlocked names, the sorted done-mission names, the unlocked count
and the version (default 1), those keys are equal; and the key is execution
of take-32-of-base64-of-SHA-256 over the serialized fingerprint. -/
theorem c4_key_determinism (c : Crypto) (S T : JVal) (kS kT : String)
    (h1 : sortedUnlockedNames S = sortedUnlockedNames T)
    (h2 : sortedDoneNames S = sortedDoneNames T)
    (h3 : unlockedCount S = unlockedCount T)
    (h4 : versionOf S = versionOf T)
    (hS : generateDynamicKey c S = .ok kS)
    (hT : generateDynamicKey c T = .ok kT) :
    kS = kT ∧
    generateDynamicKey c S =
      (c.sha256base64 (jsonStringify none (keyFeatures S))).map
        (fun s => strTake s 32) := by
  have hnnS : missionsHasNullElem (missionsValOf S) = false := by
    by_contra hx
    simp only [Bool.not_eq_false] at hx
    rw [generateDynamicKey, if_pos hx] at hS
    exact Except.noConfusion hS
  have hnnT : missionsHasNullElem (missionsValOf T) = false := by
    by_contra hx
    simp only [Bool.not_eq_false] at hx
    rw [generateDynamicKey, if_pos hx] at hT
    exact Except.noConfusion hT
  have hfeat : keyFeatures S = keyFeatures T := by
    rw [keyFeatures, keyFeatures, h1, h3, h4, missionProgressOf,
      missionProgressOf, h2]
  constructor
  · rw [generateDynamicKey, if_neg (by simp [hnnS])] at hS
    rw [generateDynamicKey, if_neg (by simp [hnnT]), ← hfeat] at hT
    have := hS.symm.trans hT
    injection this
  · rw [generateDynamicKey, if_neg (by simp [hnnS])]

/-- Witness for C4 at the empty snapshot compared with itself. -/
theorem c4_key_determinism_witness :
    okKey (JVal.obj []) = okKey (JVal.obj []) ∧
    generateDynamicKey okCrypto (JVal.obj []) =
      (okCrypto.sha256base64 (jsonStringify none (keyFeatures (JVal.obj [])))).map
        (fun s => strTake s 32) :=
  c4_key_determinism okCrypto (JVal.obj []) (JVal.obj [])
    (okKey (JVal.obj [])) (okKey (JVal.obj [])) rfl rfl rfl rfl
    (generateDynamicKey_okCrypto rfl) (generateDynamicKey_okCrypto rfl)

/-- C7: export and import always resolve to exactly one discriminated
result value for every input and every hashing backend, and an internal
hashing/signing failure is caught and surfaced as a failure result carrying
the underlying message. -/
theorem c7_errors_as_data (c : Crypto) (now : Int) (v : JVal) :
    ((∃ d i, secureExport c now v = .success d i) ∨
      (∃ m, secureExport c now v = .failure m)) ∧
    ((∃ d i, secureImport c now v = .success d i) ∨
      (∃ m, secureImport c now v = .failure m)) ∧
    (∀ m, validateGameLogic v = .ok → generateDynamicKey c v = .error m →
      secureExport c now v = .failure m) ∧
    (∀ m, v ≠ .null →
      truthyO (lookupField (spreadFields v) INTEGRITY_KEY) = true →
      (truthyO (lookupField (spreadFields v) TIMESTAMP_KEY) &&
        tsOutOfRange now (lookupField (spreadFields v) TIMESTAMP_KEY)) = false →
      validateGameLogic (.obj (stripReserved (spreadFields v))) = .ok →
      generateDynamicKey c (.obj (stripReserved (spreadFields v))) = .error m →
      secureImport c now v = .failure ("匯入錯誤: " ++ m)) := by
  refine ⟨?_, ?_, ?_, ?_⟩
  · cases h : secureExport c now v with
    | success d i => exact Or.inl ⟨d, i, rfl⟩
    | failure m => exact Or.inr ⟨m, rfl⟩
  · cases h : secureImport c now v with
    | success d i => exact Or.inl ⟨d, i, rfl⟩
    | failure m => exact Or.inr ⟨m, rfl⟩
  · intro m hval herr
    rw [secureExport, hval, herr]
  · intro m hnull hsig hts hval herr
    cases v with
    | null => exact absurd rfl hnull
    | bool b => simp only [secureImport, hsig, hts, hval, herr] at *; simp [hsig, hts, hval, herr]
    | num n => simp only [secureImport] at *; simp [hsig, hts, hval, herr]
    | str s => simp only [secureImport] at *; simp [hsig, hts, hval, herr]
    | arr xs => simp only [secureImport] at *; simp [hsig, hts, hval, herr]
    | obj fs => simp only [secureImport] at *; simp [hsig, hts, hval, herr]

/-- Witness for C7 with a failing hashing backend: the export surfaces the
backend's message, the import wraps it in the import-error prefix. -/
theorem c7_errors_as_data_witness :
    secureExport (failCrypto "boom") 0 (JVal.obj []) = .failure "boom" ∧
    secureImport (failCrypto "boom") 0 (.obj [("_sf_integrity", .str "x")]) =
      .failure ("匯入錯誤: " ++ "boom") :=
  ⟨(c7_errors_as_data (failCrypto "boom") 0 (JVal.obj [])).2.2.1 "boom" rfl rfl,
   (c7_errors_as_data (failCrypto "boom") 0
      (.obj [("_sf_integrity", .str "x")])).2.2.2 "boom"
     (fun h => JVal.noConfusion h) rfl rfl rfl rfl⟩

/-- C10: exporting an object snapshot always ends the envelope's reserved
fields at the bookkeeping values (overwriting any caller-supplied reserved
field), and a successful import never exposes a reserved key in the
recovered snapshot. -/
theorem c10_reserved_fields_overwritten_and_stripped :
    (∀ (c : Crypto) (now : Int) (fs : List (String × JVal)) (env : JVal)
      (info : ExportInfo),
      secureExport c now (.obj fs) = .success env info →
      getProp env TIMESTAMP_KEY = some (.num now) ∧
      getProp env VERSION_KEY = some (.str "1.0") ∧
      ∃ s, getProp env INTEGRITY_KEY = some (.str s)) ∧
    (∀ (c : Crypto) (now : Int) (e d : JVal) (i : ImportInfo),
      secureImport c now e = .success d i →
      getProp d INTEGRITY_KEY = none ∧ getProp d TIMESTAMP_KEY = none ∧
      getProp d VERSION_KEY = none) := by
  constructor
  · intro c now fs env info h
    rw [secureExport] at h
    repeat' split at h
    all_goals try exact ExportResult.noConfusion h
    injection h with h1 h2
    subst h1
    rename_i sig _
    refine ⟨?_, ?_, ⟨sig, ?_⟩⟩
    · show lookupField (setPairs (setPairs (setPairs (spreadFields (.obj fs))
        INTEGRITY_KEY (.str sig)) TIMESTAMP_KEY (.num now)) VERSION_KEY
        (.str "1.0")) TIMESTAMP_KEY = some (.num now)
      rw [lookupField_setPairs_of_ne (by decide), lookupField_setPairs_self]
    · show lookupField (setPairs (setPairs (setPairs (spreadFields (.obj fs))
        INTEGRITY_KEY (.str sig)) TIMESTAMP_KEY (.num now)) VERSION_KEY
        (.str "1.0")) VERSION_KEY = some (.str "1.0")
      rw [lookupField_setPairs_self]
    · show lookupField (setPairs (setPairs (setPairs (spreadFields (.obj fs))
        INTEGRITY_KEY (.str sig)) TIMESTAMP_KEY (.num now)) VERSION_KEY
        (.str "1.0")) INTEGRITY_KEY = some (.str sig)
      rw [lookupField_setPairs_of_ne (by decide),
        lookupField_setPairs_of_ne (by decide), lookupField_setPairs_self]
  · intro c now e d i h
    have hd := secureImport_success_data h
    subst hd
    exact ⟨lookupField_stripReserved (by decide) _,
      lookupField_stripReserved (by decide) _,
      lookupField_stripReserved (by decide) _⟩

/-- Witness for C10: a snapshot carrying its own _sf_integrity field is
exported with that field overwritten, and a successful import exposes no
reserved field. -/
theorem c10_reserved_fields_witness :
    (getProp (exportData (secureExport okCrypto 0
        (.obj [("_sf_integrity", .str "evil")]))) TIMESTAMP_KEY =
      some (.num 0) ∧
     getProp (exportData (secureExport okCrypto 0
        (.obj [("_sf_integrity", .str "evil")]))) VERSION_KEY =
      some (.str "1.0") ∧
     ∃ s, getProp (exportData (secureExport okCrypto 0
        (.obj [("_sf_integrity", .str "evil")]))) INTEGRITY_KEY =
      some (.str s)) ∧
    (getProp (JVal.obj []) INTEGRITY_KEY = none ∧
     getProp (JVal.obj []) TIMESTAMP_KEY = none ∧
     getProp (JVal.obj []) VERSION_KEY = none) :=
  ⟨c10_reserved_fields_overwritten_and_stripped.1 okCrypto 0
      [("_sf_integrity", .str "evil")]
      (exportData (secureExport okCrypto 0 (.obj [("_sf_integrity", .str "evil")])))
      ⟨0, 0, 0⟩ (by decide),
   c10_reserved_fields_overwritten_and_stripped.2 okCrypto releaseTime
      (exportData (secureExport okCrypto releaseTime (.obj []))) (JVal.obj [])
      ⟨releaseTime, 0, true⟩ (by decide)⟩

/-- Acceptance of a well-formed envelope by the importer: valid snapshot
fields, the symbolic signature, any timestamp value that does not fire the
gate. -/
theorem secureImport_env_ok {fs : List (String × JVal)} {now : Int} {tsv : JVal}
    (hIK : lookupField fs INTEGRITY_KEY = none)
    (hTK : lookupField fs TIMESTAMP_KEY = none)
    (hVK : lookupField fs VERSION_KEY = none)
    (hval : validateGameLogic (.obj fs) = .ok)
    (hnn : missionsHasNullElem (missionsValOf (.obj fs)) = false)
    (hgate : (truthy tsv && tsOutOfRange now (some tsv)) = false) :
    secureImport okCrypto now (.obj (fs ++ [(INTEGRITY_KEY, .str (okSig (.obj fs))),
        (TIMESTAMP_KEY, tsv), (VERSION_KEY, .str "1.0")])) =
      .success (.obj fs)
        ⟨importTimeMs now (some tsv), unlockedCount (.obj fs), true⟩ := by
  rw [secureImport_env hIK hTK hVK (okSig_ne_empty (.obj fs)), hgate]
  simp only [Bool.false_eq_true, if_false]
  rw [hval, generateDynamicKey_okCrypto hnn]
  simp [generateSignature_okCrypto, sigMatches, okSig]

/-- C2 (amended): a snapshot accepted by the validator round-trips to
exactly itself, provided it carries none of the three reserved keys, its
missions contain no null entry (such an entry makes key derivation throw
and export fail), and the export-time clock is at or after the release
boundary. -/
theorem c2_roundtrip_amended (fs : List (String × JVal)) (now : Int)
    (hIK : lookupField fs INTEGRITY_KEY = none)
    (hTK : lookupField fs TIMESTAMP_KEY = none)
    (hVK : lookupField fs VERSION_KEY = none)
    (hval : validateGameLogic (.obj fs) = .ok)
    (hnn : missionsHasNullElem (missionsValOf (.obj fs)) = false)
    (hrel : releaseTime ≤ now) :
    secureImport okCrypto now (exportData (secureExport okCrypto now (.obj fs))) =
      .success (.obj fs) ⟨now, unlockedCount (.obj fs), true⟩ := by
  rw [secureExport_ok hval hnn]
  simp only [exportData]
  rw [export_env_normal hIK hTK hVK]
  have hnow0 : now ≠ 0 := by
    have hpos : (0 : Int) < releaseTime := by decide
    omega
  have htr : truthy (.num now) = true := by simp [truthy, hnow0]
  have hgate : (truthy (JVal.num now) && tsOutOfRange now (some (.num now))) = false := by
    have g1 : ¬ (now < releaseTime) := by omega
    have g2 : ¬ (now + dayInMs < now) := by
      have hd : (0 : Int) < dayInMs := by decide
      omega
    simp [tsOutOfRange, toNumLoose, g1, g2]
  rw [secureImport_env_ok hIK hTK hVK hval hnn hgate]
  simp [importTimeMs, htr, toNumLoose]

/-- Witness for C2 at the specification's concrete scenario snapshot,
exported and re-imported at the release boundary. -/
theorem c2_roundtrip_amended_witness :
    secureImport okCrypto releaseTime
      (exportData (secureExport okCrypto releaseTime sampleSnapshot)) =
      .success sampleSnapshot ⟨releaseTime, 1, true⟩ :=
  c2_roundtrip_amended
    [("unlocked", .obj [("Fire", .arr [.str "🔥"])]),
     ("history", .arr []),
     ("missions", .arr [.obj [("name", .str "Fire"),
                              ("emoji", .arr [.str "🔥"]),
                              ("done", .bool true)]]),
     ("version", .num 1)]
    releaseTime rfl rfl rfl rfl rfl (le_refl _)

/-- C3 (amended): an envelope whose timestamp is 0 bypasses the gate (the
gate tests truthiness, not presence — see the counterexample); for a
nonzero numeric timestamp the gate fires exactly when the timestamp
predates the release boundary or postdates now + 1 day.  In particular a
timestamp equal to now is accepted and one equal to now + 2 days is
rejected. -/
theorem c3_timestamp_gate_amended (fs : List (String × JVal)) (now ts : Int)
    (hIK : lookupField fs INTEGRITY_KEY = none)
    (hTK : lookupField fs TIMESTAMP_KEY = none)
    (hVK : lookupField fs VERSION_KEY = none)
    (hval : validateGameLogic (.obj fs) = .ok)
    (hnn : missionsHasNullElem (missionsValOf (.obj fs)) = false)
    (hts0 : ts ≠ 0) :
    ((ts < releaseTime ∨ now + dayInMs < ts) →
      secureImport okCrypto now
        (withField (exportData (secureExport okCrypto now (.obj fs)))
          TIMESTAMP_KEY (.num ts)) =
        .failure "存檔時間戳異常") ∧
    (releaseTime ≤ ts → ts ≤ now + dayInMs →
      secureImport okCrypto now
        (withField (exportData (secureExport okCrypto now (.obj fs)))
          TIMESTAMP_KEY (.num ts)) =
        .success (.obj fs) ⟨ts, unlockedCount (.obj fs), true⟩) := by
  have htr : truthy (.num ts) = true := by simp [truthy, hts0]
  have henv : withField (exportData (secureExport okCrypto now (.obj fs)))
      TIMESTAMP_KEY (.num ts) =
      .obj (fs ++ [(INTEGRITY_KEY, .str (okSig (.obj fs))),
        (TIMESTAMP_KEY, .num ts), (VERSION_KEY, .str "1.0")]) := by
    rw [secureExport_ok hval hnn]
    simp only [exportData, withField, objFields]
    rw [export_env_normal hIK hTK hVK, setPairs_append_of_none hTK]
    rfl
  constructor
  · intro hbad
    have hgate : tsOutOfRange now (some (.num ts)) = true := by
      rcases hbad with h | h <;> simp [tsOutOfRange, toNumLoose, h]
    rw [henv, secureImport_env hIK hTK hVK (okSig_ne_empty (.obj fs))]
    simp [htr, hgate]
  · intro hge hle
    have hgate : (truthy (JVal.num ts) && tsOutOfRange now (some (.num ts))) = false := by
      have g1 : ¬ (ts < releaseTime) := by omega
      have g2 : ¬ (now + dayInMs < ts) := by omega
      simp [tsOutOfRange, toNumLoose, g1, g2]
    rw [henv, secureImport_env_ok hIK hTK hVK hval hnn hgate]
    simp [importTimeMs, htr, toNumLoose]

/-- Witness for C3: at the release boundary, a timestamp of now + 2 days is
rejected with the timestamp reason and a timestamp equal to now is
accepted. -/
theorem c3_timestamp_gate_amended_witness :
    secureImport okCrypto releaseTime
      (withField (exportData (secureExport okCrypto releaseTime (.obj [])))
        TIMESTAMP_KEY (.num (releaseTime + 2 * dayInMs))) =
      .failure "存檔時間戳異常" ∧
    secureImport okCrypto releaseTime
      (withField (exportData (secureExport okCrypto releaseTime (.obj [])))
        TIMESTAMP_KEY (.num releaseTime)) =
      .success (.obj []) ⟨releaseTime, 0, true⟩ :=
  ⟨(c3_timestamp_gate_amended [] releaseTime (releaseTime + 2 * dayInMs)
      rfl rfl rfl rfl rfl (by decide)).1 (Or.inr (by decide)),
   (c3_timestamp_gate_amended [] releaseTime releaseTime
      rfl rfl rfl rfl rfl (by decide)).2 (le_refl _) (by decide)⟩

/-- C8 (amended): the importer mutates nothing and is a pure function of
the envelope together with the clock reading: for a fixed clock, identical
envelopes yield identical results, and the snapshot of any successful
secureImport call is exactly the envelope's own fields with the three
reserved keys removed.  (It is not a function of the envelope alone — see the
counterexample.) -/
theorem c8_import_pure_in_envelope_and_clock :
    (∀ (c : Crypto) (now : Int) (e e2 : JVal), e = e2 →
      secureImport c now e = secureImport c now e2) ∧
    (∀ (c : Crypto) (now : Int) (e d : JVal) (i : ImportInfo),
      secureImport c now e = .success d i →
      d = .obj (stripReserved (spreadFields e))) :=
  ⟨fun _ _ _ _ h => by rw [h],
   fun _ _ _ _ _ h => secureImport_success_data h⟩

/-- Witness for C8 at concrete envelopes. -/
theorem c8_import_pure_witness :
    secureImport okCrypto 0 (.obj []) = secureImport okCrypto 0 (.obj []) ∧
    JVal.obj [] = .obj (stripReserved (spreadFields
      (exportData (secureExport okCrypto releaseTime (.obj []))))) :=
  ⟨c8_import_pure_in_envelope_and_clock.1 okCrypto 0 (.obj []) (.obj []) rfl,
   c8_import_pure_in_envelope_and_clock.2 okCrypto releaseTime
     (exportData (secureExport okCrypto releaseTime (.obj []))) (JVal.obj [])
     ⟨releaseTime, 0, true⟩ (by decide)⟩

end SafeFile
